import Mathlib

/-!
Shallow embedding of `arcade-android/app/src/main/cpp/main.cpp`.

The program installs a lifecycle-command handler and an input-event handler
on the OS-owned `android_app`, logs a startup record, and then runs a poll
loop: `ALooper_pollOnce` with zero timeout, processing each drained source
and returning when `app->destroyRequested` is observed non-zero.

Logging (`__android_log_print`) is modelled as emitting a `LogRecord`;
functions return the list of records they emit, in order.  The OS
environment is modelled as a finite trace of poll outcomes (`OsStep`): each
step records what `ALooper_pollOnce` returned and the value of the
OS-owned `destroyRequested` flag during that iteration of the loop.  Since
the body of the outer `while (true)` loop after the inner drain loop is
empty (only a placeholder comment), a negative poll result simply leads to
the next poll call, so the nested loops are embedded as one recursion over
the trace.
-/

/-- Android log priority `ANDROID_LOG_VERBOSE` (value from `android/log.h`). -/
def ANDROID_LOG_VERBOSE : Nat := 2

/-- Android log priority `ANDROID_LOG_INFO` (value from `android/log.h`). -/
def ANDROID_LOG_INFO : Nat := 4

/-- The fixed log tag `kLogTag` from `main.cpp`. -/
def kLogTag : String := "arcade-native"

/-- One diagnostic record emitted through `__android_log_print`. -/
structure LogRecord where
  priority : Nat
  tag : String
  message : String
deriving DecidableEq, Repr

/-- A call `__android_log_print(prio, tag, msg)` as the record it emits. -/
def androidLogPrint (prio : Nat) (tag msg : String) : LogRecord :=
  ⟨prio, tag, msg⟩

/-- NDK lifecycle-command constant `APP_CMD_INIT_WINDOW`
(value from `android_native_app_glue.h`). -/
def APP_CMD_INIT_WINDOW : Int := 1

/-- NDK lifecycle-command constant `APP_CMD_TERM_WINDOW`
(value from `android_native_app_glue.h`). -/
def APP_CMD_TERM_WINDOW : Int := 2

/-- NDK lifecycle-command constant `APP_CMD_DESTROY`
(value from `android_native_app_glue.h`). -/
def APP_CMD_DESTROY : Int := 15

/-- The lifecycle-command dispatcher `handleAppCommand` from `main.cpp`:
a `switch` on `cmd` that logs an informational record for
`APP_CMD_INIT_WINDOW` and `APP_CMD_TERM_WINDOW` and does nothing in the
`default` branch.  Returns the records it emits. -/
def handleAppCommand (cmd : Int) : List LogRecord :=
  if cmd = APP_CMD_INIT_WINDOW then
    [androidLogPrint ANDROID_LOG_INFO kLogTag "Window initialized"]
  else if cmd = APP_CMD_TERM_WINDOW then
    [androidLogPrint ANDROID_LOG_INFO kLogTag "Window terminated"]
  else
    []

/-- NDK input-event type constant `AINPUT_EVENT_TYPE_KEY`
(value from `android/input.h`). -/
def AINPUT_EVENT_TYPE_KEY : Int := 1

/-- NDK input-event type constant `AINPUT_EVENT_TYPE_MOTION`
(value from `android/input.h`). -/
def AINPUT_EVENT_TYPE_MOTION : Int := 2

/-- An opaque OS input event; the program only ever inspects its type tag,
so only that tag is modelled. -/
structure AInputEvent where
  eventType : Int
deriving DecidableEq, Repr

/-- NDK accessor `AInputEvent_getType`. -/
def AInputEvent_getType (e : AInputEvent) : Int :=
  e.eventType

/-- The input handler `handleInputEvent` from `main.cpp`: logs a verbose
record when the event type is `AINPUT_EVENT_TYPE_MOTION`, and returns `0`
in all cases.  Returns the emitted records together with the status code. -/
def handleInputEvent (e : AInputEvent) : List LogRecord × Int :=
  if AInputEvent_getType e = AINPUT_EVENT_TYPE_MOTION then
    ([androidLogPrint ANDROID_LOG_VERBOSE kLogTag "Motion input event"], 0)
  else
    ([], 0)

/-- What a drained poll source delivers when its `process` routine runs:
the glue layer routes it either to the command handler or to the input
handler. -/
inductive SourceEvent where
  | lifecycle (cmd : Int)
  | input (ev : AInputEvent)
deriving DecidableEq, Repr

/-- Outcome of one `ALooper_pollOnce(0, ...)` call: either a result `≥ 0`
with the (possibly null) `android_poll_source*` written through the out
parameter, or a negative result (no events queued, or a poll error). -/
inductive PollRes where
  | ok (source : Option SourceEvent)
  | noEvents (status : Int)
deriving DecidableEq, Repr

/-- One iteration of the OS environment as the pump observes it: the poll
outcome, and the value of the OS-owned `app->destroyRequested` flag during
this iteration (the value a check in this iteration would read). -/
structure OsStep where
  res : PollRes
  destroyRequested : Bool
deriving DecidableEq, Repr

/-- The two mutable callback slots of the OS-owned `android_app` that
`android_main` fills in. -/
structure AndroidApp where
  onAppCmd : Int → List LogRecord
  onInputEvent : AInputEvent → List LogRecord × Int

/-- `source->process(app, source)`: the glue routes a lifecycle command to
`app->onAppCmd` and an input event to `app->onInputEvent`; a null source
is skipped by the `if (source != nullptr)` guard. -/
def processSource (app : AndroidApp) : Option SourceEvent → List LogRecord
  | none => []
  | some (.lifecycle cmd) => app.onAppCmd cmd
  | some (.input ev) => (app.onInputEvent ev).1

/-- Observable outcome of running the poll loop against a finite OS trace:
the records logged, the number of `ALooper_pollOnce` calls made, and
whether the loop returned through the destroy branch (`exited = false`
means the loop was still running when the trace ran out). -/
structure PumpResult where
  logs : List LogRecord
  polls : Nat
  exited : Bool
deriving DecidableEq, Repr

/-- The final record logged on the destroy branch of `android_main`. -/
def destroyExitRecord : LogRecord :=
  androidLogPrint ANDROID_LOG_INFO kLogTag "Destroy requested, exiting"

/-- The record logged by `android_main` before the loop starts. -/
def startupRecord : LogRecord :=
  androidLogPrint ANDROID_LOG_INFO kLogTag "Native loop started"

/-- The poll loop of `android_main`, run against a finite OS trace.  Each
step is one `ALooper_pollOnce` call: on a result `≥ 0` the non-null source
is processed and `app->destroyRequested` is checked — if non-zero the loop
logs the final record and returns; on a negative result the inner drain
loop is left and, the outer loop body being empty, the next poll call
follows immediately. -/
def pollLoop (app : AndroidApp) : List OsStep → PumpResult
  | [] => ⟨[], 0, false⟩
  | step :: rest =>
    match step.res with
    | .noEvents _ =>
      let r := pollLoop app rest
      ⟨r.logs, r.polls + 1, r.exited⟩
    | .ok src =>
      let procLogs := processSource app src
      if step.destroyRequested then
        ⟨procLogs ++ [destroyExitRecord], 1, true⟩
      else
        let r := pollLoop app rest
        ⟨procLogs ++ r.logs, r.polls + 1, r.exited⟩

/-- The `android_app` as configured at the top of `android_main`:
`app->onAppCmd = handleAppCommand; app->onInputEvent = handleInputEvent;`. -/
def mainApp : AndroidApp :=
  ⟨handleAppCommand, handleInputEvent⟩

/-- The entry point `android_main`, run against a finite OS trace: install
the two handlers, log the startup record, then run the poll loop.  Returns
the configured app (its callback slots) together with the observable
outcome. -/
def android_main (trace : List OsStep) : AndroidApp × PumpResult :=
  let app := mainApp
  let r := pollLoop app trace
  (app, ⟨startupRecord :: r.logs, r.polls, r.exited⟩)

/-- A step whose destroy check (if reached) would read `false`: either the
flag is `false`, or the poll result is negative so no check happens. -/
def checkReadsFalse (s : OsStep) : Bool :=
  match s.res with
  | .ok _ => !s.destroyRequested
  | .noEvents _ => true

/-- A step whose poll result is negative. -/
def isNoEvents (s : OsStep) : Bool :=
  match s.res with
  | .ok _ => false
  | .noEvents _ => true

/-- The OS-owned destroy flag is monotone over a trace: once `true`, it
stays `true` for every later step. -/
def flagMonotone : List OsStep → Bool
  | [] => true
  | s :: rest =>
    (!s.destroyRequested || rest.all (·.destroyRequested)) && flagMonotone rest

/-! Unfolding lemmas for one step of the poll loop. -/

theorem pollLoop_noEvents (app : AndroidApp) (st : Int) (flag : Bool) (rest : List OsStep) :
    pollLoop app (⟨PollRes.noEvents st, flag⟩ :: rest) =
      ⟨(pollLoop app rest).logs, (pollLoop app rest).polls + 1, (pollLoop app rest).exited⟩ :=
  rfl

theorem pollLoop_ok_true (app : AndroidApp) (src : Option SourceEvent) (rest : List OsStep) :
    pollLoop app (⟨PollRes.ok src, true⟩ :: rest) =
      ⟨processSource app src ++ [destroyExitRecord], 1, true⟩ :=
  rfl

theorem pollLoop_ok_false (app : AndroidApp) (src : Option SourceEvent) (rest : List OsStep) :
    pollLoop app (⟨PollRes.ok src, false⟩ :: rest) =
      ⟨processSource app src ++ (pollLoop app rest).logs, (pollLoop app rest).polls + 1,
        (pollLoop app rest).exited⟩ :=
  rfl

/-- Neither handler of `mainApp` ever emits the destroy-exit record: their
messages are fixed and differ from it. -/
theorem destroyExitRecord_not_processed (src : Option SourceEvent) :
    destroyExitRecord ∉ processSource mainApp src := by
  rcases src with _ | ev
  · simp [processSource]
  · rcases ev with cmd | e
    · show destroyExitRecord ∉ handleAppCommand cmd
      unfold handleAppCommand
      split_ifs <;> decide
    · show destroyExitRecord ∉ (handleInputEvent e).1
      unfold handleInputEvent
      split_ifs <;> decide

/-- C1: for each recognized lifecycle command (`APP_CMD_INIT_WINDOW`,
`APP_CMD_TERM_WINDOW`) the dispatcher emits exactly one diagnostic record,
of informational severity, and returns normally (it is a total function
whose only output is that record). -/
theorem handleAppCommand_recognized_one_info (cmd : Int)
    (h : cmd = APP_CMD_INIT_WINDOW ∨ cmd = APP_CMD_TERM_WINDOW) :
    (handleAppCommand cmd).length = 1 ∧
      ∀ r ∈ handleAppCommand cmd, r.priority = ANDROID_LOG_INFO := by
  rcases h with h | h <;> subst h <;> decide

theorem handleAppCommand_recognized_one_info_witness :
    (APP_CMD_INIT_WINDOW = APP_CMD_INIT_WINDOW ∨
        APP_CMD_INIT_WINDOW = APP_CMD_TERM_WINDOW) ∧
      ((handleAppCommand APP_CMD_INIT_WINDOW).length = 1 ∧
        ∀ r ∈ handleAppCommand APP_CMD_INIT_WINDOW, r.priority = ANDROID_LOG_INFO) :=
  ⟨Or.inl rfl, handleAppCommand_recognized_one_info APP_CMD_INIT_WINDOW (Or.inl rfl)⟩

/-- C2: for every command value other than `APP_CMD_INIT_WINDOW` and
`APP_CMD_TERM_WINDOW` the dispatcher emits no record and returns normally:
the `default` branch makes it total over all command values. -/
theorem handleAppCommand_unrecognized_noop (cmd : Int)
    (h1 : cmd ≠ APP_CMD_INIT_WINDOW) (h2 : cmd ≠ APP_CMD_TERM_WINDOW) :
    handleAppCommand cmd = [] := by
  simp [handleAppCommand, h1, h2]

theorem handleAppCommand_unrecognized_noop_witness :
    (7 : Int) ≠ APP_CMD_INIT_WINDOW ∧ (7 : Int) ≠ APP_CMD_TERM_WINDOW ∧
      handleAppCommand 7 = [] :=
  ⟨by decide, by decide, handleAppCommand_unrecognized_noop 7 (by decide) (by decide)⟩

/-- C3: for every input event whose type tag is motion, the input handler
emits exactly one verbose diagnostic record and returns status `0`. -/
theorem handleInputEvent_motion_verbose (e : AInputEvent)
    (h : AInputEvent_getType e = AINPUT_EVENT_TYPE_MOTION) :
    handleInputEvent e =
      ([androidLogPrint ANDROID_LOG_VERBOSE kLogTag "Motion input event"], 0) := by
  simp [handleInputEvent, h]

theorem handleInputEvent_motion_verbose_witness :
    AInputEvent_getType ⟨AINPUT_EVENT_TYPE_MOTION⟩ = AINPUT_EVENT_TYPE_MOTION ∧
      handleInputEvent ⟨AINPUT_EVENT_TYPE_MOTION⟩ =
        ([androidLogPrint ANDROID_LOG_VERBOSE kLogTag "Motion input event"], 0) :=
  ⟨rfl, handleInputEvent_motion_verbose ⟨AINPUT_EVENT_TYPE_MOTION⟩ rfl⟩

/-- C4: for every input event whose type tag is not motion, the input
handler emits no record and returns status `0`; moreover the handler
returns status `0` on every possible input event. -/
theorem handleInputEvent_nonmotion_passthrough (e : AInputEvent)
    (h : AInputEvent_getType e ≠ AINPUT_EVENT_TYPE_MOTION) :
    handleInputEvent e = ([], 0) ∧
      ∀ e2 : AInputEvent, (handleInputEvent e2).2 = 0 := by
  refine ⟨by simp [handleInputEvent, h], fun e2 => ?_⟩
  unfold handleInputEvent
  split <;> rfl

theorem handleInputEvent_nonmotion_passthrough_witness :
    AInputEvent_getType ⟨AINPUT_EVENT_TYPE_KEY⟩ ≠ AINPUT_EVENT_TYPE_MOTION ∧
      (handleInputEvent ⟨AINPUT_EVENT_TYPE_KEY⟩ = ([], 0) ∧
        ∀ e2 : AInputEvent, (handleInputEvent e2).2 = 0) :=
  ⟨by decide, handleInputEvent_nonmotion_passthrough ⟨AINPUT_EVENT_TYPE_KEY⟩ (by decide)⟩

/-- C5: when the destroy-requested flag is observed `true` at the check
following a drained event (all earlier checks having read `false`), the
pump logs the final informational record exactly once (it appears nowhere
earlier in the run's output), returns, and makes no poll call beyond the
`pre.length + 1` calls already made — in particular none for the steps in
`post`. -/
theorem pump_destroy_observed_exits (pre post : List OsStep) (src : Option SourceEvent)
    (hpre : pre.all checkReadsFalse = true) :
    ∃ eventLogs : List LogRecord,
      pollLoop mainApp (pre ++ ⟨PollRes.ok src, true⟩ :: post) =
        ⟨eventLogs ++ [destroyExitRecord], pre.length + 1, true⟩ ∧
      destroyExitRecord ∉ eventLogs := by
  induction pre with
  | nil =>
    exact ⟨processSource mainApp src, pollLoop_ok_true mainApp src post,
      destroyExitRecord_not_processed src⟩
  | cons s pre ih =>
    rw [List.all_cons, Bool.and_eq_true] at hpre
    obtain ⟨hs, hrest⟩ := hpre
    obtain ⟨ev, heq, hnot⟩ := ih hrest
    obtain ⟨res, flag⟩ := s
    cases res with
    | ok src2 =>
      have hflag : flag = false := by simpa [checkReadsFalse] using hs
      subst hflag
      refine ⟨processSource mainApp src2 ++ ev, ?_, ?_⟩
      · rw [List.cons_append, pollLoop_ok_false, heq]
        simp [List.append_assoc]
      · intro hmem
        rcases List.mem_append.mp hmem with hmem | hmem
        · exact destroyExitRecord_not_processed src2 hmem
        · exact hnot hmem
    | noEvents st =>
      refine ⟨ev, ?_, hnot⟩
      rw [List.cons_append, pollLoop_noEvents, heq]
      simp

theorem pump_destroy_observed_exits_witness :
    ([] : List OsStep).all checkReadsFalse = true ∧
      ∃ eventLogs : List LogRecord,
        pollLoop mainApp [⟨PollRes.ok none, true⟩] =
          ⟨eventLogs ++ [destroyExitRecord], 1, true⟩ ∧
        destroyExitRecord ∉ eventLogs :=
  ⟨rfl, pump_destroy_observed_exits [] [] none rfl⟩

/-- A monotone OS trace on which the destroy flag is already `true` before
the first poll call, but both polls return a negative status. -/
def flagSetNoEventsTrace : List OsStep :=
  [⟨PollRes.noEvents (-1), true⟩, ⟨PollRes.noEvents (-1), true⟩]

/-- C6 counterexample: the claim says that once the destroy flag is true
the pump exits and performs no subsequent poll call, however the flag
became true.  On `flagSetNoEventsTrace` the flag is `true` from before the
first poll onwards (and is monotone), yet the pump makes a second poll
call and has not exited: the check in the source runs only after a poll
that returned `≥ 0`, so a flag set outside the processing of a drained
event is not observed while polls keep returning negative status. -/
theorem pump_flag_monotone_counterexample :
    flagMonotone flagSetNoEventsTrace = true ∧
      flagSetNoEventsTrace.all (·.destroyRequested) = true ∧
      (pollLoop mainApp flagSetNoEventsTrace).polls = 2 ∧
      (pollLoop mainApp flagSetNoEventsTrace).exited = false := by
  decide

/-- C6 amended: once the destroy flag is true, the pump exits at the first
subsequent poll call that returns `≥ 0` (after processing that event) and
performs no poll call beyond it; while polls return negative status the
flag is not observed and polling continues. -/
theorem pump_flag_exit_at_first_ok (pre post : List OsStep) (src : Option SourceEvent)
    (hpre : pre.all isNoEvents = true) :
    (pollLoop mainApp (pre ++ ⟨PollRes.ok src, true⟩ :: post)).exited = true ∧
      (pollLoop mainApp (pre ++ ⟨PollRes.ok src, true⟩ :: post)).polls = pre.length + 1 := by
  induction pre with
  | nil => exact ⟨rfl, rfl⟩
  | cons s pre ih =>
    rw [List.all_cons, Bool.and_eq_true] at hpre
    obtain ⟨hs, hrest⟩ := hpre
    obtain ⟨h1, h2⟩ := ih hrest
    obtain ⟨res, flag⟩ := s
    cases res with
    | ok src2 => simp [isNoEvents] at hs
    | noEvents st =>
      rw [List.cons_append, pollLoop_noEvents]
      exact ⟨h1, by simp [h2]⟩

theorem pump_flag_exit_at_first_ok_witness :
    [(⟨PollRes.noEvents (-1), true⟩ : OsStep)].all isNoEvents = true ∧
      ((pollLoop mainApp [⟨PollRes.noEvents (-1), true⟩, ⟨PollRes.ok none, true⟩]).exited = true ∧
        (pollLoop mainApp [⟨PollRes.noEvents (-1), true⟩, ⟨PollRes.ok none, true⟩]).polls = 2) :=
  ⟨rfl, pump_flag_exit_at_first_ok [⟨PollRes.noEvents (-1), true⟩] [] none rfl⟩

/-- C7: every negative poll status — whether an error code or "no events
queued" — is treated identically: the inner drain loop is left with no
record emitted and no fault, and the run continues with the next poll on
the remaining trace; the result does not depend on the status value. -/
theorem pump_negative_poll_is_empty_queue (status : Int) (flag : Bool) (rest : List OsStep) :
    pollLoop mainApp (⟨PollRes.noEvents status, flag⟩ :: rest) =
      ⟨(pollLoop mainApp rest).logs, (pollLoop mainApp rest).polls + 1,
        (pollLoop mainApp rest).exited⟩ :=
  rfl

/-- The end-to-end scenario trace: a window-available command, a motion
input event, then a destroy command after whose processing the
destroy-requested flag reads `true`. -/
def scenarioTrace : List OsStep :=
  [⟨PollRes.ok (some (SourceEvent.lifecycle APP_CMD_INIT_WINDOW)), false⟩,
   ⟨PollRes.ok (some (SourceEvent.input ⟨AINPUT_EVENT_TYPE_MOTION⟩)), false⟩,
   ⟨PollRes.ok (some (SourceEvent.lifecycle APP_CMD_DESTROY)), true⟩]

/-- C8: fed `[window-available, motion-input, destroy-requested]` in that
order, the pump emits exactly three diagnostic records, with severities
(informational, verbose, informational) in that order, then exits; only
three poll calls are made, and none beyond them no matter what the OS
would have offered next (`extra`). -/
theorem pump_scenario_three_records (extra : List OsStep) :
    pollLoop mainApp (scenarioTrace ++ extra) =
      ⟨[androidLogPrint ANDROID_LOG_INFO kLogTag "Window initialized",
        androidLogPrint ANDROID_LOG_VERBOSE kLogTag "Motion input event",
        androidLogPrint ANDROID_LOG_INFO kLogTag "Destroy requested, exiting"], 3, true⟩ :=
  rfl

/-- C9: on any trace, `android_main` first installs `handleAppCommand` and
`handleInputEvent` in the two callback slots, then — before any poll call
— logs exactly one informational startup record, which precedes every
record attributed to events. -/
theorem android_main_startup_record (trace : List OsStep) :
    (android_main trace).1.onAppCmd = handleAppCommand ∧
      (android_main trace).1.onInputEvent = handleInputEvent ∧
      (android_main trace).2.logs = startupRecord :: (pollLoop mainApp trace).logs ∧
      startupRecord.priority = ANDROID_LOG_INFO ∧
      (android_main trace).2.polls = (pollLoop mainApp trace).polls :=
  ⟨rfl, rfl, rfl, rfl, rfl⟩

/-- C10: `android_main` never returns while the destroy-requested flag is
`0`: on any trace on which the flag never reads `true`, the pump has not
exited and has made one poll call per trace step — however long the trace,
the loop is still polling. -/
theorem android_main_runs_while_flag_clear (trace : List OsStep)
    (h : trace.all (fun s => !s.destroyRequested) = true) :
    (android_main trace).2.exited = false ∧
      (android_main trace).2.polls = trace.length := by
  have key : ∀ t : List OsStep, t.all (fun s => !s.destroyRequested) = true →
      (pollLoop mainApp t).exited = false ∧ (pollLoop mainApp t).polls = t.length := by
    intro t
    induction t with
    | nil => exact fun _ => ⟨rfl, rfl⟩
    | cons s rest ih =>
      intro ht
      rw [List.all_cons, Bool.and_eq_true] at ht
      obtain ⟨hs, hrest⟩ := ht
      obtain ⟨h1, h2⟩ := ih hrest
      obtain ⟨res, flag⟩ := s
      have hflag : flag = false := by simpa using hs
      subst hflag
      cases res with
      | ok src => rw [pollLoop_ok_false]; exact ⟨h1, by simp [h2]⟩
      | noEvents st => rw [pollLoop_noEvents]; exact ⟨h1, by simp [h2]⟩
  exact key trace h

theorem android_main_runs_while_flag_clear_witness :
    [(⟨PollRes.ok none, false⟩ : OsStep), ⟨PollRes.noEvents (-1), false⟩].all
        (fun s => !s.destroyRequested) = true ∧
      ((android_main [⟨PollRes.ok none, false⟩, ⟨PollRes.noEvents (-1), false⟩]).2.exited = false ∧
        (android_main [⟨PollRes.ok none, false⟩, ⟨PollRes.noEvents (-1), false⟩]).2.polls = 2) :=
  ⟨rfl, android_main_runs_while_flag_clear
    [⟨PollRes.ok none, false⟩, ⟨PollRes.noEvents (-1), false⟩] rfl⟩
